import Mathlib

/-!
Verification development for the Planetary Computer example notebooks
(JRC Global Surface Water example and 3DEP seamless / NDVI-to-blob-storage
example).  The notebooks are thin orchestration over external geospatial
libraries; the operations they invoke (catalog search, raster masking,
normalized-difference computation, colormap extraction, raster
serialization and blob upload) are embedded here.  Operations whose
implementation lives in external libraries are modelled from the
specification's contracts; the notebook's own code (the resolution
filters and the colormap list comprehension) is translated directly.
-/

namespace PCNotebooks

/-- Closed axis-aligned rectangle with rational coordinates,
`[x0, x1] × [y0, y1]`. -/
structure Rect where
  x0 : ℚ
  x1 : ℚ
  y0 : ℚ
  y1 : ℚ
deriving DecidableEq, Repr

/-- Two closed rectangles meet (share at least one point) iff their
coordinate intervals overlap. -/
def Rect.overlaps (r s : Rect) : Bool :=
  decide (r.x0 ≤ s.x1 ∧ s.x0 ≤ r.x1 ∧ r.y0 ≤ s.y1 ∧ s.y0 ≤ r.y1)

/-- Membership of a point in a closed rectangle. -/
def Rect.containsPt (r : Rect) (x y : ℚ) : Bool :=
  decide (r.x0 ≤ x ∧ x ≤ r.x1 ∧ r.y0 ≤ y ∧ y ≤ r.y1)

/-- Modelled from the spec: "AreaOfInterest: a polygon or bounding box in
geographic coordinates, used both as a query filter and as a crop/mask
boundary".  The region is represented as a nonempty finite union of closed
axis-aligned rational rectangles, which keeps point membership, pixel
intersection and the bounding box exactly computable. -/
structure Polygon where
  first : Rect
  rest : List Rect
deriving DecidableEq, Repr

/-- The rectangles making up the polygon's region. -/
def Polygon.rects (P : Polygon) : List Rect :=
  P.first :: P.rest

/-- A point lies in the polygon iff it lies in one of its rectangles. -/
def Polygon.containsPt (P : Polygon) (x y : ℚ) : Bool :=
  P.rects.any (fun r => r.containsPt x y)

/-- The polygon's region meets a given rectangle (any part of the
rectangle intersects the polygon) iff one of its rectangles does. -/
def Polygon.touchesRect (P : Polygon) (s : Rect) : Bool :=
  P.rects.any (fun r => r.overlaps s)

/-- Hull step used to accumulate a bounding box. -/
def Rect.hull (r s : Rect) : Rect :=
  ⟨min r.x0 s.x0, max r.x1 s.x1, min r.y0 s.y0, max r.y1 s.y1⟩

/-- The polygon's bounding box: the hull of its rectangles. -/
def Polygon.bbox (P : Polygon) : Rect :=
  P.rest.foldl Rect.hull P.first

/-- Affine georeferencing transform of a north-up raster: pixel column `c`
spans geographic `x` from `tc + a*c` to `tc + a*(c+1)` and pixel row `r`
spans `y` from `tf + e*r` to `tf + e*(r+1)` (with `e` typically negative). -/
structure Affine where
  a : ℚ
  e : ℚ
  tc : ℚ
  tf : ℚ
deriving DecidableEq, Repr

/-- The geographic rectangle covered by pixel `(row, col)`. -/
def Affine.pixelRect (T : Affine) (row col : ℕ) : Rect :=
  ⟨min (T.tc + T.a * col) (T.tc + T.a * (col + 1)),
   max (T.tc + T.a * col) (T.tc + T.a * (col + 1)),
   min (T.tf + T.e * row) (T.tf + T.e * (row + 1)),
   max (T.tf + T.e * row) (T.tf + T.e * (row + 1))⟩

/-- Whether the geographic `y`-span of pixel row `row` meets the
`y`-interval of rectangle `b`. -/
def Affine.rowMeets (T : Affine) (b : Rect) (row : ℕ) : Bool :=
  decide (min (T.tf + T.e * row) (T.tf + T.e * (row + 1)) ≤ b.y1 ∧
          b.y0 ≤ max (T.tf + T.e * row) (T.tf + T.e * (row + 1)))

/-- Whether the geographic `x`-span of pixel column `col` meets the
`x`-interval of rectangle `b`. -/
def Affine.colMeets (T : Affine) (b : Rect) (col : ℕ) : Bool :=
  decide (min (T.tc + T.a * col) (T.tc + T.a * (col + 1)) ≤ b.x1 ∧
          b.x0 ≤ max (T.tc + T.a * col) (T.tc + T.a * (col + 1)))

/-- Modelled from the spec: "RasterAsset: decoded pixel grid (2D array of
numeric samples), an affine georeferencing transform".  Samples are stored
row-major; rational sample values cover both 8-bit categorical data and
derived index values. -/
structure GeoRaster where
  rows : ℕ
  cols : ℕ
  transform : Affine
  pix : List ℚ
deriving DecidableEq, Repr

/-- Sample value at `(row, col)`, row-major; 0 outside the stored data. -/
def GeoRaster.sample (g : GeoRaster) (row col : ℕ) : ℚ :=
  g.pix.getD (row * g.cols + col) 0

/-- Result of masking: the retained pixel-index window (the crop) together
with the masked sample values. -/
structure Masked where
  keptRows : List ℕ
  keptCols : List ℕ
  val : ℕ → ℕ → ℚ

/-- Modelled from the spec: "given decoded pixel data, its affine
transform, and a polygon, produce a pixel array where samples outside the
polygon are replaced with a designated sentinel (no data) value, and the
array is cropped to the polygon's bounding box.  Edge policy:
partially-covered boundary pixels are included if any part of the pixel
intersects the polygon (inclusive rasterization)."  This embeds the call
`rasterio.mask.mask(src, [area_of_interest], crop=True, nodata=255)`:
the crop window keeps exactly the raster pixels whose geographic extent
meets the polygon's bounding box, and a pixel's sample survives iff some
part of the pixel intersects the polygon, else it becomes `nodata`. -/
def rasterioMask (R : GeoRaster) (P : Polygon) (nodata : ℚ) : Masked :=
  { keptRows := (List.range R.rows).filter (fun r => R.transform.rowMeets P.bbox r)
    keptCols := (List.range R.cols).filter (fun c => R.transform.colMeets P.bbox c)
    val := fun r c =>
      if P.touchesRect (R.transform.pixelRect r c) then R.sample r c else nodata }

/-- Modelled from the spec: a "same-shaped numeric band" — a grid of
per-pixel values in which `none` stands for a not-a-number sample. -/
structure Band where
  rows : ℕ
  cols : ℕ
  pix : ℕ → ℕ → Option ℚ

/-- Modelled from the spec: the per-pixel normalized difference,
"`(a - b) / (a + b)`, propagating not-a-number where the denominator is
zero".  A not-a-number input propagates to the output. -/
def ndviPix (a b : Option ℚ) : Option ℚ :=
  match a, b with
  | some x, some y => if x + y = 0 then none else some ((x - y) / (x + y))
  | _, _ => none

/-- Modelled from the spec: the index computation invoked as
`xrspatial.ndvi`, applied pixel-wise; the result is a fresh band with the
shape of the first input. -/
def ndvi (a b : Band) : Band :=
  { rows := a.rows
    cols := a.cols
    pix := fun r c => ndviPix (a.pix r c) (b.pix r c) }

/-- Serialized raster bytes; the container is modelled as a flat rational
stream: header (rows, cols, transform) followed by the row-major samples. -/
abbrev Blob := List ℚ

/-- Modelled from the spec: "serialize a pixel array plus georeferencing
into a self-describing compressed raster container" — the embedding of
`ndvi.rio.to_raster(buffer, driver="COG")`. -/
def GeoRaster.toCOG (g : GeoRaster) : Blob :=
  (g.rows : ℚ) :: (g.cols : ℚ) ::
    g.transform.a :: g.transform.e :: g.transform.tc :: g.transform.tf ::
    g.pix

/-- Decode a serialized raster container back into a raster; fails on a
stream too short to hold the header. -/
def cogDecode (b : Blob) : Option GeoRaster :=
  match b with
  | rows :: cols :: a :: e :: tc :: tf :: pix =>
      some { rows := rows.num.toNat, cols := cols.num.toNat,
             transform := ⟨a, e, tc, tf⟩, pix := pix }
  | _ => none

/-- Modelled from the spec: "Object storage interface: addressed by
(account, container, blob-name); supports upload-with-overwrite of an
arbitrary byte stream and read access" — the container's contents, as a
mapping from blob name to stored bytes. -/
abbrev BlobStore := List (String × Blob)

/-- Upload with overwrite (`blob_client.upload_blob(buffer, overwrite=True)`):
any existing object under the same name is replaced. -/
def uploadBlob (store : BlobStore) (name : String) (b : Blob) : BlobStore :=
  (name, b) :: store.filter (fun p => !(p.1 == name))

/-- Read an object back by its storage address. -/
def readBlob (store : BlobStore) (name : String) : Option Blob :=
  (store.find? (fun p => p.1 == name)).map Prod.snd

/-- Modelled from the spec: reading a raster back from object storage by
its address (`rioxarray.open_rasterio(blob_client.url)`). -/
def openRemoteRaster (store : BlobStore) (name : String) : Option GeoRaster :=
  (readBlob store name).bind cogDecode

/-- Modelled from the spec: "CatalogItem: an identifier, a geographic
footprint, a mapping from asset name to asset location (URL) and media
type, and a mapping of scalar properties (e.g., resolution, capture
date)".  The footprint is carried as its bounding rectangle and scalar
properties as rational values. -/
structure CatalogItem where
  ident : String
  collection : String
  footprint : Rect
  assets : List (String × String × String)
  props : List (String × ℚ)
deriving DecidableEq, Repr

/-- Scalar property lookup (`item.properties[key]`). -/
def CatalogItem.prop (i : CatalogItem) (k : String) : Option ℚ :=
  (i.props.find? (fun p => p.1 == k)).map Prod.snd

/-- Dictionary serialization of an item (`item.to_dict()`): a lossless
change of representation, modelled as the identity on the item record. -/
def CatalogItem.toDict (i : CatalogItem) : CatalogItem := i

/-- Python-level lookup error raised by subscripting a dictionary on a
missing key (`colormap_def[i]`, `item.properties["gsd"]`). -/
inductive PyError where
  | keyError : ℕ → PyError
  | keyErrorStr : String → PyError
deriving DecidableEq, Repr

/-- Sequential evaluation of
`[item.to_dict() for item in items if item.properties[k] == v]`: the
comprehension walks the items left to right, raises a lookup error at the
first item whose property mapping is missing the key `k`, and otherwise
keeps (as dictionaries) exactly the items whose `k` property equals `v`. -/
def selectByProp (k : String) (v : ℚ) : List CatalogItem → Except PyError (List CatalogItem)
  | [] => Except.ok []
  | i :: rest =>
      match i.prop k with
      | none => Except.error (PyError.keyErrorStr k)
      | some q =>
          match selectByProp k v rest with
          | Except.error e => Except.error e
          | Except.ok l => Except.ok (if q = v then i.toDict :: l else l)

/-- Embeds `[item.to_dict() for item in items if item.properties["gsd"] == 30]`
from the 3DEP notebook. -/
def itemsLowRes (items : List CatalogItem) : Except PyError (List CatalogItem) :=
  selectByProp "gsd" 30 items

/-- Embeds `[item.to_dict() for item in items if item.properties["gsd"] == 10]`
from the 3DEP notebook. -/
def itemsHighRes (items : List CatalogItem) : Except PyError (List CatalogItem) :=
  selectByProp "gsd" 10 items

/-- Modelled from the spec: a remote-call failure of the catalog query —
"network errors, authorization failures, and malformed-response errors
surface as distinct failures local to the operation". -/
inductive QueryError where
  | networkFailure : QueryError
  | authorizationFailure : QueryError
deriving DecidableEq, Repr

/-- Modelled from the spec: the remote catalog and the reachability of the
remote service during one call. -/
structure Catalog where
  items : List CatalogItem
  reachable : Bool

/-- Modelled from the spec: "given a geographic filter (polygon or
bounding box) and a collection identifier, return the set of items whose
footprint intersects the filter" — the embedding of
`catalog.search(collections=[...], intersects=area_of_interest)` followed
by `.item_collection()`.  A failed remote call surfaces as an error;
otherwise the (possibly empty) matching sequence is returned. -/
def catalogSearch (cat : Catalog) (collections : List String)
    (intersects : Polygon) : Except QueryError (List CatalogItem) :=
  if cat.reachable then
    Except.ok (cat.items.filter (fun i =>
      collections.contains i.collection && intersects.touchesRect i.footprint))
  else
    Except.error QueryError.networkFailure

/-- An RGBA palette entry as stored in GeoTIFF metadata: four 8-bit
components. -/
abbrev RGBA := Fin 256 × Fin 256 × Fin 256 × Fin 256

/-- A colormap definition as returned by `src.colormap(1)`: a dictionary
from sample value to RGBA tuple, modelled as a partial map. -/
abbrev ColormapDef := ℕ → Option RGBA

/-- A display color in matplotlib format: four rational components. -/
abbrev Color := ℚ × ℚ × ℚ × ℚ

/-- Conversion of one palette entry to matplotlib format: each raw 0-255
component divided by 256 (`np.array(colormap_def[i]) / 256`). -/
def colorOfEntry (e : RGBA) : Color :=
  ((e.1 : ℚ) / 256, (e.2.1 : ℚ) / 256, (e.2.2.1 : ℚ) / 256, (e.2.2.2 : ℚ) / 256)

/-- Sequential evaluation of `[np.array(colormap_def[i]) / 256 for i in ks]`:
the first missing key raises a lookup error. -/
def extractFrom (d : ColormapDef) : List ℕ → Except PyError (List Color)
  | [] => Except.ok []
  | i :: rest =>
      match d i with
      | none => Except.error (PyError.keyError i)
      | some e =>
          match extractFrom d rest with
          | Except.error err => Except.error err
          | Except.ok l => Except.ok (colorOfEntry e :: l)

/-- Embeds `[np.array(colormap_def[i]) / 256 for i in range(256)]` from
the JRC notebook: the colormap table handed to `ListedColormap`. -/
def extractColormap (d : ColormapDef) : Except PyError (List Color) :=
  extractFrom d (List.range 256)

/-- Select the single band of a raster as a numeric band (every stored
sample is a number). -/
def GeoRaster.band (g : GeoRaster) : Band :=
  { rows := g.rows, cols := g.cols, pix := fun r c => some (g.sample r c) }

/-- Modelled from the spec: the in-memory state of one linear workflow run
after the query has returned — the returned items, the remote asset
contents addressable by URL, and the intermediate products of the
remaining steps (decoded raster, extracted colormaps, masked array,
derived band, object-storage container). -/
structure WState where
  items : List CatalogItem
  remote : String → Option GeoRaster
  raster : Option GeoRaster
  cmaps : List (String × List Color)
  masked : Option Masked
  derived : Option Band
  store : BlobStore

/-- Workflow step: dereference the first asset URL of the first returned
item and decode it (`rasterio.open(item.assets[asset_key].href)` /
`rioxarray.open_rasterio(item.assets["image"].href)`). -/
def readAssetOp (s : WState) : WState :=
  { s with raster :=
      match s.items with
      | [] => none
      | i :: _ =>
          match i.assets with
          | [] => none
          | (_, url, _) :: _ => s.remote url }

/-- Workflow step: extract the embedded colormap of the decoded asset into
matplotlib format and record it under the asset key. -/
def extractColormapOp (key : String) (d : ColormapDef) (s : WState) : WState :=
  { s with cmaps :=
      match extractColormap d with
      | Except.ok l => (key, l) :: s.cmaps
      | Except.error _ => s.cmaps }

/-- Workflow step: mask and crop the decoded asset by the area of
interest with sentinel 255 (`rasterio.mask.mask(..., crop=True, nodata=255)`). -/
def maskOp (P : Polygon) (s : WState) : WState :=
  { s with masked := s.raster.map (fun g => rasterioMask g P 255) }

/-- Workflow step: compute the normalized-difference index of two selected
bands (`xrspatial.ndvi(ds.sel(band="red"), ds.sel(band="nir"))`). -/
def transformOp (a b : Band) (s : WState) : WState :=
  { s with derived := some (ndvi a b) }

/-- Workflow step: serialize the decoded raster and upload it with
overwrite to the named blob. -/
def uploadOp (name : String) (s : WState) : WState :=
  { s with store :=
      match s.raster with
      | none => s.store
      | some g => uploadBlob s.store name g.toCOG }

/-- Modelled from the spec: the band workspace of the index computation —
the two input bands and the slot for the result.  The computation writes
only the result slot. -/
structure BandStore where
  red : Band
  nir : Band
  out : Option Band

/-- The index-computation step acting on the band workspace: it stores the
normalized difference of the two input bands in the result slot. -/
def ndviStep (w : BandStore) : BandStore :=
  { w with out := some (ndvi w.red w.nir) }

/-- Demo transform for concrete checks: unit pixels, north-up, top-left
corner at (0, 2). -/
def demoTransform : Affine := ⟨1, -1, 0, 2⟩

/-- Demo 2×2 raster with samples 10, 20, 30, 40. -/
def demoRaster : GeoRaster := ⟨2, 2, demoTransform, [10, 20, 30, 40]⟩

/-- Demo polygon: a small rectangle inside the top-left pixel's cell. -/
def demoPolyCell : Polygon := ⟨⟨0, 1/2, 3/2, 2⟩, []⟩

/-- Demo polygon: a square centered where all four pixel cells meet, so
that it partially covers each of the four pixels. -/
def demoPolyCenter : Polygon := ⟨⟨1/2, 3/2, 1/2, 3/2⟩, []⟩

/-- Demo polygon disjoint from the demo raster's extent. -/
def demoPolyFar : Polygon := ⟨⟨10, 11, 10, 11⟩, []⟩

/-- Demo colormap definition with every key 0-255 present. -/
def demoCmapFull : ColormapDef := fun _ => some (10, 20, 30, 255)

/-- Demo colormap definition with every key missing. -/
def demoCmapEmpty : ColormapDef := fun _ => none

/-- Demo catalog item whose footprint is the demo raster's extent. -/
def demoItem : CatalogItem :=
  ⟨"LC08_demo", "jrc-gsw", ⟨0, 2, 0, 2⟩, [("seasonality", "https://example/demo.tif", "image/tiff")],
   [("gsd", 30)]⟩

/-- Demo catalog item at 10 m resolution. -/
def demoItemHigh : CatalogItem :=
  ⟨"USGS_demo", "3dep-seamless", ⟨0, 2, 0, 2⟩, [("data", "https://example/dem.tif", "image/tiff")],
   [("gsd", 10)]⟩

/-- C2: for every pair of same-shaped numeric bands `a` and `b`, the index
computation returns at every pixel the value `(a - b) / (a + b)`, and at
every pixel where `a + b = 0` the result is not-a-number rather than an
error. -/
theorem ndvi_pixelwise (a b : Band) (r c : ℕ) (x y : ℚ)
    (ha : a.pix r c = some x) (hb : b.pix r c = some y) :
    (x + y ≠ 0 → (ndvi a b).pix r c = some ((x - y) / (x + y))) ∧
    (x + y = 0 → (ndvi a b).pix r c = none) := by
  constructor <;> intro h <;> simp [ndvi, ndviPix, ha, hb, h]

/-- Witness for C2 at concrete bands: `(3 - 1)/(3 + 1) = 1/2`, and the
denominator-zero pixel yields not-a-number. -/
theorem ndvi_pixelwise_witness :
    (ndvi ⟨1, 1, fun _ _ => some 3⟩ ⟨1, 1, fun _ _ => some 1⟩).pix 0 0 = some (1 / 2) ∧
    (ndvi ⟨1, 1, fun _ _ => some 3⟩ ⟨1, 1, fun _ _ => some (-3)⟩).pix 0 0 = none := by
  constructor
  · have h := (ndvi_pixelwise ⟨1, 1, fun _ _ => some 3⟩ ⟨1, 1, fun _ _ => some 1⟩
      0 0 3 1 rfl rfl).1 (by norm_num)
    rw [h]; norm_num
  · exact (ndvi_pixelwise ⟨1, 1, fun _ _ => some 3⟩ ⟨1, 1, fun _ _ => some (-3)⟩
      0 0 3 (-3) rfl rfl).2 (by norm_num)

/-- C3: the index computation is antisymmetric — at every pixel where the
denominator is non-zero, the normalized difference of `(a, b)` is the
negation of the normalized difference of `(b, a)`. -/
theorem ndvi_antisymm (a b : Band) (r c : ℕ) (x y : ℚ)
    (ha : a.pix r c = some x) (hb : b.pix r c = some y) (h : x + y ≠ 0) :
    ∃ v, (ndvi a b).pix r c = some v ∧ (ndvi b a).pix r c = some (-v) := by
  have h2 : y + x ≠ 0 := fun hyx => h (by rwa [add_comm])
  refine ⟨(x - y) / (x + y), by simp [ndvi, ndviPix, ha, hb, h], ?_⟩
  have hval : (y - x) / (y + x) = -((x - y) / (x + y)) := by
    rw [add_comm y x, ← neg_div]
    ring_nf
  simp [ndvi, ndviPix, ha, hb, h2, hval]

/-- Witness for C3 at concrete bands: the two orders give `1/2` and
`-1/2`. -/
theorem ndvi_antisymm_witness :
    ∃ v, (ndvi ⟨1, 1, fun _ _ => some 3⟩ ⟨1, 1, fun _ _ => some 1⟩).pix 0 0 = some v ∧
      (ndvi ⟨1, 1, fun _ _ => some 1⟩ ⟨1, 1, fun _ _ => some 3⟩).pix 0 0 = some (-v) :=
  ndvi_antisymm ⟨1, 1, fun _ _ => some 3⟩ ⟨1, 1, fun _ _ => some 1⟩
    0 0 3 1 rfl rfl (by norm_num)

/-- C9: the index computation performs no in-place mutation of its
inputs — after the computation step, both input bands of the workspace are
unchanged, element for element. -/
theorem ndvi_no_mutation (w : BandStore) :
    (ndviStep w).red = w.red ∧ (ndviStep w).nir = w.nir ∧
    (∀ r c, (ndviStep w).red.pix r c = w.red.pix r c) ∧
    (∀ r c, (ndviStep w).nir.pix r c = w.nir.pix r c) :=
  ⟨rfl, rfl, fun _ _ => rfl, fun _ _ => rfl⟩

/-- C7: catalog items are immutable once returned by the query — no
workflow operation (reading assets, extracting colormaps, masking,
transforming, uploading) changes the returned items, hence neither their
identifiers, footprints, asset mappings nor properties. -/
theorem items_immutable (s : WState) (key : String) (d : ColormapDef)
    (P : Polygon) (a b : Band) (name : String) :
    (readAssetOp s).items = s.items ∧
    (extractColormapOp key d s).items = s.items ∧
    (maskOp P s).items = s.items ∧
    (transformOp a b s).items = s.items ∧
    (uploadOp name s).items = s.items :=
  ⟨rfl, rfl, rfl, rfl, rfl⟩

/-- C1: masking a raster by a polygon crops the output to the polygon's
bounding box — the retained pixel window consists exactly of the raster
rows and columns whose geographic extent meets the bounding box of `P`,
so the output's extent is the pixel grid's cover of `P`'s bounding box —
and every output pixel lying outside `P` carries the no-data sentinel
255. -/
theorem rasterio_mask_spec (R : GeoRaster) (P : Polygon) :
    (∀ r, r ∈ (rasterioMask R P 255).keptRows ↔
      r < R.rows ∧ R.transform.rowMeets P.bbox r = true) ∧
    (∀ c, c ∈ (rasterioMask R P 255).keptCols ↔
      c < R.cols ∧ R.transform.colMeets P.bbox c = true) ∧
    (∀ r c, P.touchesRect (R.transform.pixelRect r c) = false →
      (rasterioMask R P 255).val r c = 255) := by
  refine ⟨fun r => ?_, fun c => ?_, fun r c h => ?_⟩
  · simp [rasterioMask, List.mem_filter, List.mem_range]
  · simp [rasterioMask, List.mem_filter, List.mem_range]
  · simp [rasterioMask, h]

/-- Witness for C1 at the demo raster and a polygon inside the top-left
cell: row 0 meets the polygon's bounding box and is kept, and the
bottom-right pixel, which lies outside the polygon, carries 255. -/
theorem rasterio_mask_spec_witness :
    0 ∈ (rasterioMask demoRaster demoPolyCell 255).keptRows ∧
    (rasterioMask demoRaster demoPolyCell 255).val 1 1 = 255 :=
  ⟨((rasterio_mask_spec demoRaster demoPolyCell).1 0).mpr
    ⟨by norm_num [demoRaster],
     by norm_num [demoRaster, demoTransform, demoPolyCell, Affine.rowMeets,
       Polygon.bbox]⟩,
   (rasterio_mask_spec demoRaster demoPolyCell).2.2 1 1
    (by norm_num [demoRaster, demoTransform, demoPolyCell, Polygon.touchesRect,
       Polygon.rects, Rect.overlaps, Affine.pixelRect])⟩

/-- C6: inclusive rasterization edge policy — every pixel any part of
which intersects the polygon is included in the masked output at its
original sample value, not replaced by the sentinel. -/
theorem mask_inclusive_edge (R : GeoRaster) (P : Polygon) (r c : ℕ)
    (hr : r < R.rows) (hc : c < R.cols)
    (h : P.touchesRect (R.transform.pixelRect r c) = true) :
    (rasterioMask R P 255).val r c = R.sample r c := by
  simp [rasterioMask, h]

/-- Witness for C6: the centered demo polygon covers only a quarter of
the top-left pixel, yet that pixel keeps its sample value 10. -/
theorem mask_inclusive_edge_witness :
    (rasterioMask demoRaster demoPolyCenter 255).val 0 0 = 10 := by
  rw [mask_inclusive_edge demoRaster demoPolyCenter 0 0 (by norm_num [demoRaster])
    (by norm_num [demoRaster])
    (by norm_num [demoRaster, demoTransform, demoPolyCenter, Polygon.touchesRect,
       Polygon.rects, Rect.overlaps, Affine.pixelRect])]
  norm_num [demoRaster, GeoRaster.sample]

/-- Decoding inverts serialization: the container is self-describing. -/
theorem cogDecode_toCOG (g : GeoRaster) : cogDecode g.toCOG = some g := by
  cases g with
  | mk rows cols transform pix =>
      cases transform
      simp [GeoRaster.toCOG, cogDecode]

/-- C4: round-trip law of remote persistence — serializing a derived
raster to the raster container, uploading it to a named object-storage
location with overwrite, and reading it back by that address reproduces
the identical pixel grid and georeferencing metadata. -/
theorem upload_roundtrip (store : BlobStore) (name : String) (g : GeoRaster) :
    openRemoteRaster (uploadBlob store name g.toCOG) name = some g := by
  have hfind : List.find? (fun p => p.1 == name) (uploadBlob store name g.toCOG) =
      some (name, g.toCOG) := by
    rw [uploadBlob, List.find?_cons_of_pos]
    simp
  rw [openRemoteRaster, readBlob, hfind]
  simp [cogDecode_toCOG]

/-- C5: a catalog query whose geographic filter intersects no item's
footprint returns the empty sequence of items as a normal outcome, and in
particular is not a remote-call failure. -/
theorem empty_query_ok (cat : Catalog) (cols : List String) (P : Polygon)
    (hre : cat.reachable = true)
    (hnone : ∀ i ∈ cat.items, P.touchesRect i.footprint = false) :
    catalogSearch cat cols P = Except.ok [] ∧
    ∀ e, catalogSearch cat cols P ≠ Except.error e := by
  have hfilter : cat.items.filter (fun i =>
      cols.contains i.collection && P.touchesRect i.footprint) = [] := by
    apply List.filter_eq_nil_iff.mpr
    intro i hi
    simp [hnone i hi]
  have hok : catalogSearch cat cols P = Except.ok [] := by
    unfold catalogSearch
    rw [hre, if_pos rfl, hfilter]
  exact ⟨hok, fun e => by simp [hok]⟩

/-- Witness for C5: searching the demo catalog with a far-away area of
interest returns the empty item sequence. -/
theorem empty_query_ok_witness :
    catalogSearch ⟨[demoItem], true⟩ ["jrc-gsw"] demoPolyFar = Except.ok [] :=
  (empty_query_ok ⟨[demoItem], true⟩ ["jrc-gsw"] demoPolyFar rfl
    (by
      intro i hi
      rw [List.mem_singleton] at hi
      subst hi
      norm_num [demoItem, demoPolyFar, Polygon.touchesRect, Polygon.rects,
        Rect.overlaps])).1

/-- On an item list in which every item defines the property key, the
selection comprehension succeeds and keeps exactly the items whose
property equals the compared value. -/
theorem selectByProp_ok (k : String) (v : ℚ) (items : List CatalogItem)
    (h : ∀ i ∈ items, (i.prop k).isSome = true) :
    selectByProp k v items =
      Except.ok (items.filter (fun i => decide (i.prop k = some v))) := by
  induction items with
  | nil => rfl
  | cons i rest ih =>
      have hi := h i (by simp)
      cases hq : i.prop k with
      | none => rw [hq] at hi; simp at hi
      | some q =>
          have hrest := ih (fun j hj => h j (List.mem_cons_of_mem i hj))
          simp only [selectByProp, hq, hrest]
          by_cases hqv : q = v
          · simp [List.filter_cons, hq, hqv, CatalogItem.toDict]
          · simp [List.filter_cons, hq, hqv]

/-- C8: for an item sequence as returned by the query, in which every item
defines the `gsd` property (on any other input the notebook's
comprehension raises a lookup error instead of selecting), the
low-resolution selection succeeds and contains exactly the items whose
`gsd` property equals 30, the high-resolution selection exactly those
whose `gsd` property equals 10, and no item appears in both. -/
theorem gsd_selection_spec (items : List CatalogItem)
    (h : ∀ i ∈ items, (i.prop "gsd").isSome = true) :
    ∃ low high,
      itemsLowRes items = Except.ok low ∧
      itemsHighRes items = Except.ok high ∧
      (∀ d, d ∈ low ↔ d ∈ items ∧ d.prop "gsd" = some 30) ∧
      (∀ d, d ∈ high ↔ d ∈ items ∧ d.prop "gsd" = some 10) ∧
      (∀ d, d ∈ low → d ∈ high → False) := by
  have hlow := selectByProp_ok "gsd" 30 items h
  have hhigh := selectByProp_ok "gsd" 10 items h
  refine ⟨_, _, hlow, hhigh, fun d => ?_, fun d => ?_, fun d hd1 hd2 => ?_⟩
  · simp [List.mem_filter]
  · simp [List.mem_filter]
  · rw [List.mem_filter] at hd1 hd2
    have e30 : d.prop "gsd" = some 30 := by simpa using hd1.2
    have e10 : d.prop "gsd" = some 10 := by simpa using hd2.2
    rw [e30] at e10
    have : (30 : ℚ) = 10 := Option.some_injective ℚ e10
    norm_num at this

/-- Witness for C8: a demo catalog with one 30 m item and one 10 m item,
both carrying the `gsd` property, yields disjoint selections
characterized exactly by their `gsd` values. -/
theorem gsd_selection_spec_witness :
    (∀ i ∈ [demoItem, demoItemHigh], (i.prop "gsd").isSome = true) ∧
    ∃ low high,
      itemsLowRes [demoItem, demoItemHigh] = Except.ok low ∧
      itemsHighRes [demoItem, demoItemHigh] = Except.ok high ∧
      (∀ d, d ∈ low ↔ d ∈ [demoItem, demoItemHigh] ∧ d.prop "gsd" = some 30) ∧
      (∀ d, d ∈ high ↔ d ∈ [demoItem, demoItemHigh] ∧ d.prop "gsd" = some 10) ∧
      (∀ d, d ∈ low → d ∈ high → False) := by
  have hkeys : ∀ i ∈ [demoItem, demoItemHigh], (i.prop "gsd").isSome = true := by
    intro i hi
    rcases List.mem_cons.mp hi with h1 | hi2
    · subst h1
      simp [demoItem, CatalogItem.prop, List.find?]
    · rw [List.mem_singleton] at hi2
      subst hi2
      simp [demoItemHigh, CatalogItem.prop, List.find?]
  exact ⟨hkeys, gsd_selection_spec [demoItem, demoItemHigh] hkeys⟩

/-- Extraction succeeds pointwise on keys that are all present,
producing the converted palette entries in order. -/
theorem extractFrom_ok (d : ColormapDef) (f : ℕ → RGBA) (l : List ℕ)
    (h : ∀ i ∈ l, d i = some (f i)) :
    extractFrom d l = Except.ok (l.map (fun i => colorOfEntry (f i))) := by
  induction l with
  | nil => rfl
  | cons i rest ih =>
      have hi : d i = some (f i) := h i (by simp)
      have hrest := ih (fun j hj => h j (by simp [hj]))
      simp [extractFrom, hi, hrest]

/-- Extraction fails with a lookup error when some requested key is
missing. -/
theorem extractFrom_error (d : ColormapDef) (l : List ℕ)
    (h : ∃ i ∈ l, d i = none) :
    ∃ k, extractFrom d l = Except.error (PyError.keyError k) := by
  induction l with
  | nil => simp at h
  | cons i rest ih =>
      cases hdi : d i with
      | none => exact ⟨i, by simp [extractFrom, hdi]⟩
      | some e =>
          have hrest : ∃ j ∈ rest, d j = none := by
            obtain ⟨j, hj, hnone⟩ := h
            rcases List.mem_cons.mp hj with hji | hjrest
            · rw [hji, hdi] at hnone
              exact absurd hnone (by simp)
            · exact ⟨j, hjrest, hnone⟩
          obtain ⟨k, hk⟩ := ih hrest
          exact ⟨k, by simp [extractFrom, hdi, hk]⟩

/-- Every converted component, an 8-bit value divided by 256, lies in
`[0, 1)`. -/
theorem unitComponent (v : Fin 256) : 0 ≤ (v : ℚ) / 256 ∧ (v : ℚ) / 256 < 1 := by
  constructor
  · positivity
  · rw [div_lt_one (by norm_num)]
    exact_mod_cast v.isLt

/-- C10: colormap extraction succeeds exactly when the embedded colormap
defines an entry for every sample value 0-255; then it returns the table
of exactly 256 colors whose components are the raw palette components
divided by 256, each lying in `[0, 1)`; a colormap missing one of those
keys makes extraction fail with a lookup error. -/
theorem colormap_extraction_spec (d : ColormapDef) (f : ℕ → RGBA) :
    ((∀ i, i < 256 → d i = some (f i)) →
      extractColormap d =
        Except.ok ((List.range 256).map (fun i => colorOfEntry (f i))) ∧
      ((List.range 256).map (fun i => colorOfEntry (f i))).length = 256 ∧
      (∀ col ∈ (List.range 256).map (fun i => colorOfEntry (f i)),
        (0 ≤ col.1 ∧ col.1 < 1) ∧ (0 ≤ col.2.1 ∧ col.2.1 < 1) ∧
        (0 ≤ col.2.2.1 ∧ col.2.2.1 < 1) ∧ (0 ≤ col.2.2.2 ∧ col.2.2.2 < 1))) ∧
    ((∃ i, i < 256 ∧ d i = none) →
      ∃ k, extractColormap d = Except.error (PyError.keyError k)) := by
  constructor
  · intro h
    refine ⟨extractFrom_ok d f _ (fun i hi => h i (List.mem_range.mp hi)),
      by simp, ?_⟩
    intro col hcol
    obtain ⟨i, _, rfl⟩ := List.mem_map.mp hcol
    exact ⟨unitComponent _, unitComponent _, unitComponent _, unitComponent _⟩
  · intro hmiss
    obtain ⟨i, hlt, hnone⟩ := hmiss
    exact extractFrom_error d _ ⟨i, List.mem_range.mpr hlt, hnone⟩

/-- Witness for C10: a full demo colormap extracts to the converted
256-entry table, and an empty one fails with a lookup error. -/
theorem colormap_extraction_spec_witness :
    extractColormap demoCmapFull =
      Except.ok ((List.range 256).map (fun i => colorOfEntry (10, 20, 30, 255))) ∧
    ∃ k, extractColormap demoCmapEmpty = Except.error (PyError.keyError k) :=
  ⟨((colormap_extraction_spec demoCmapFull (fun _ => (10, 20, 30, 255))).1
      (fun _ _ => rfl)).1,
   (colormap_extraction_spec demoCmapEmpty (fun _ => (10, 20, 30, 255))).2
      ⟨0, by norm_num, rfl⟩⟩

end PCNotebooks
